import Mathlib

/-!
Verification of the energy-estimation core of the PurdueSEC dashboard:
the month-based baseline consumption model and the MPC/RBC thermal delta
model (`energy_savings.py`, `mpc.py`), together with the derived-metrics
pipeline and the synthetic outdoor-temperature generator.

Timestamps are embedded as follows.  The thermal model only compares
timestamps for equality (pandas inner merge on the `_time` column), so its
series use integer timestamps.  The baseline model only reads the calendar
month of each timestamp (`dt.month`), so its series use a small `Stamp`
record exposing the calendar fields.  The synthetic generator steps a
date range at a fixed cadence and reads the hour of day, so it works on
integer hours since a midnight-aligned epoch.  Temperature and energy
values are exact rationals; the generator's sinusoid lives in the reals.
-/

/-- A calendar timestamp as seen by the baseline model: only the month
is ever inspected (`df['_time'].dt.month`); day and hour keep distinct
samples distinct. -/
structure Stamp where
  month : Nat
  day : Nat
  hour : Nat
deriving DecidableEq, Repr

/-- `pd.merge(a, b, on='_time')`: inner join on exact timestamp match,
preserving the order of the left keys; rows of `a` with no partner in `b`
(and vice versa) are dropped.  A row of the result carries the shared
timestamp, the left `_value` and the right `_value`. -/
def pd_merge (a b : List (Int × ℚ)) : List (Int × ℚ × ℚ) :=
  a.flatMap (fun p => (b.filter (fun q => q.1 == p.1)).map (fun q => (p.1, p.2, q.2)))

namespace MPCCalculator

/-- `RBC_C1_HEATING = 0.1958333333` from `mpc.py`. -/
def RBC_C1_HEATING : ℚ := 0.1958333333

/-- `C2_HEATING = -8` from `mpc.py`. -/
def C2_HEATING : ℚ := -8

/-- `MPC_C1_HEATING = 0.1595833333` from `mpc.py`. -/
def MPC_C1_HEATING : ℚ := 0.1595833333

/-- `RBC_C1_COOLING = 0.1266666667` from `mpc.py`. -/
def RBC_C1_COOLING : ℚ := 0.1266666667

/-- `C2_COOLING = 6.4` from `mpc.py`. -/
def C2_COOLING : ℚ := 6.4

/-- `MPC_C1_COOLING = 0.1091666667` from `mpc.py`. -/
def MPC_C1_COOLING : ℚ := 0.1091666667

/-- `MPCCalculator.calculate_energy_consumption`: merge the indoor and
outdoor series on `_time`, pick `(c1, c2)` by the `mode == 'heating'`
and `control_type == 'mpc'` string tests (any other mode falls into the
cooling branch, any other control type into the rbc branch), compute
`E = c1 * (T_indoor - T_outdoor) + c2` and clip at zero
(`clip(lower=0)` is `max 0`). -/
def calculate_energy_consumption (mode control_type : String)
    (temperature_df outdoor_temp_df : List (Int × ℚ)) : List (Int × ℚ) :=
  let merged := pd_merge temperature_df outdoor_temp_df
  let c1 : ℚ :=
    if mode = "heating" then
      (if control_type = "mpc" then MPC_C1_HEATING else RBC_C1_HEATING)
    else
      (if control_type = "mpc" then MPC_C1_COOLING else RBC_C1_COOLING)
  let c2 : ℚ := if mode = "heating" then C2_HEATING else C2_COOLING
  merged.map (fun r => (r.1, max 0 (c1 * (r.2.1 - r.2.2) + c2)))

/-- `MPCCalculator.calculate_total_energy_savings`: total RBC energy minus
total MPC energy, divided by 1000 (Wh assumed, converted to kWh). -/
def calculate_total_energy_savings (mpc_energy_df rbc_energy_df : List (Int × ℚ)) : ℚ :=
  let mpc_total := (mpc_energy_df.map Prod.snd).sum
  let rbc_total := (rbc_energy_df.map Prod.snd).sum
  let savings_wh := rbc_total - mpc_total
  savings_wh / 1000

/-- `MPCCalculator.calculate_cost_savings` (default rate 0.15 passed
explicitly by callers in this embedding). -/
def calculate_cost_savings (energy_savings_kwh electricity_rate : ℚ) : ℚ :=
  energy_savings_kwh * electricity_rate

/-- `MPCCalculator.calculate_co2_savings` (default 0.92 lbs/kWh). -/
def calculate_co2_savings (energy_savings_kwh co2_per_kwh : ℚ) : ℚ :=
  energy_savings_kwh * co2_per_kwh

/-- `MPCCalculator.calculate_equivalent_miles_driven` (default 0.79 lbs/mile). -/
def calculate_equivalent_miles_driven (co2_savings_lbs lbs_per_mile : ℚ) : ℚ :=
  co2_savings_lbs / lbs_per_mile

/-- The dictionary returned by `calculate_all_savings_metrics`. -/
structure SavingsMetrics where
  energy_savings_kwh : ℚ
  cost_savings_usd : ℚ
  co2_savings_lbs : ℚ
  equivalent_miles : ℚ
  mpc_energy : List (Int × ℚ)
  rbc_energy : List (Int × ℚ)

/-- `MPCCalculator.calculate_all_savings_metrics`: run the thermal model
under both control types on the same inputs, then derive savings, cost,
CO2 and equivalent miles with the hard-coded defaults 0.92 and 0.79. -/
def calculate_all_savings_metrics (mode : String) (electricity_rate : ℚ)
    (temperature_df outdoor_temp_df : List (Int × ℚ)) : SavingsMetrics :=
  let mpc_energy := calculate_energy_consumption mode "mpc" temperature_df outdoor_temp_df
  let rbc_energy := calculate_energy_consumption mode "rbc" temperature_df outdoor_temp_df
  let energy_savings_kwh := calculate_total_energy_savings mpc_energy rbc_energy
  let cost_savings_usd := calculate_cost_savings energy_savings_kwh electricity_rate
  let co2_savings_lbs := calculate_co2_savings energy_savings_kwh 0.92
  let miles_driven := calculate_equivalent_miles_driven co2_savings_lbs 0.79
  ⟨energy_savings_kwh, cost_savings_usd, co2_savings_lbs, miles_driven,
    mpc_energy, rbc_energy⟩

end MPCCalculator

namespace EnergyCalculator

/-- `BASE_RATE_ELECTRIC = 2.08` kWh/hr from `energy_savings.py`. -/
def BASE_RATE_ELECTRIC : ℚ := 2.08

/-- `BASE_RATE_GAS = 0.34` kWh/hr from `energy_savings.py`. -/
def BASE_RATE_GAS : ℚ := 0.34

/-- `BASE_RATE = BASE_RATE_ELECTRIC + BASE_RATE_GAS` (2.42 kWh/hr). -/
def BASE_RATE : ℚ := BASE_RATE_ELECTRIC + BASE_RATE_GAS

/-- `HEATING_RATES.get(m, 0)`: the winter surcharge dictionary of
`energy_savings.py`, total over all months (0 outside Nov-Mar). -/
def HEATING_RATES (m : Nat) : ℚ :=
  if m = 11 then 2.43
  else if m = 12 then 4.75
  else if m = 1 then 6.67
  else if m = 2 then 6.76
  else if m = 3 then 4.96
  else 0

/-- `ELECTRIC_RATE = 0.15` $/kWh from `energy_savings.py`. -/
def ELECTRIC_RATE : ℚ := 0.15

/-- `GAS_RATE = 0.0226` $/kWh from `energy_savings.py`. -/
def GAS_RATE : ℚ := 0.0226

/-- `EnergyCalculator.calculate_energy_consumption`: one output sample per
input timestamp, with energy `BASE_RATE + HEATING_RATES.get(month, 0)`;
temperature values and the outdoor series are ignored. -/
def calculate_energy_consumption (temperature_df outdoor_temp_df : List (Stamp × ℚ)) :
    List (Stamp × ℚ) :=
  temperature_df.map (fun p => (p.1, BASE_RATE + HEATING_RATES p.1.month))

/-- `EnergyCalculator.calculate_total_energy`: sum of the energy column. -/
def calculate_total_energy (energy_df : List (Stamp × ℚ)) : ℚ :=
  (energy_df.map Prod.snd).sum

/-- `EnergyCalculator.calculate_cost` (default rate 0.15). -/
def calculate_cost (energy_kwh electricity_rate : ℚ) : ℚ :=
  energy_kwh * electricity_rate

/-- `EnergyCalculator.calculate_co2_emissions` (default 0.417 kg/kWh). -/
def calculate_co2_emissions (energy_kwh co2_per_kwh : ℚ) : ℚ :=
  energy_kwh * co2_per_kwh

/-- `EnergyCalculator.calculate_equivalent_km_driven` (default 0.222 kg/km). -/
def calculate_equivalent_km_driven (co2_kg kg_per_km : ℚ) : ℚ :=
  co2_kg / kg_per_km

/-- The dictionary returned by `calculate_all_metrics`. -/
structure Metrics where
  total_energy_kwh : ℚ
  cost_usd : ℚ
  co2_kg : ℚ
  equivalent_km : ℚ
  energy_df : List (Stamp × ℚ)

/-- `EnergyCalculator.calculate_all_metrics`: run the baseline model, sum
it, split cost into an electric part (`len(df) * BASE_RATE_ELECTRIC` at
`ELECTRIC_RATE`) and a gas part (`Σ (BASE_RATE_GAS + surcharge(month))` at
`GAS_RATE`), then derive CO2 (default 0.417) and km (default 0.222). -/
def calculate_all_metrics (temperature_df outdoor_temp_df : List (Stamp × ℚ)) : Metrics :=
  let energy_df := calculate_energy_consumption temperature_df outdoor_temp_df
  let total_energy_kwh := calculate_total_energy energy_df
  let electric_energy_kwh : ℚ := energy_df.length * BASE_RATE_ELECTRIC
  let electric_cost := electric_energy_kwh * ELECTRIC_RATE
  let gas_energy_kwh := (energy_df.map (fun p => BASE_RATE_GAS + HEATING_RATES p.1.month)).sum
  let gas_cost := gas_energy_kwh * GAS_RATE
  let cost_usd := electric_cost + gas_cost
  let co2_kg := calculate_co2_emissions total_energy_kwh 0.417
  let km_driven := calculate_equivalent_km_driven co2_kg 0.222
  ⟨total_energy_kwh, cost_usd, co2_kg, km_driven, energy_df⟩

end EnergyCalculator

/-- The specification's surcharge table, stated in the spec's own words:
2.43 for month 11, 4.75 for month 12, 6.67 for month 1, 6.76 for month 2,
4.96 for month 3, and 0 for every other month.  Kept separate from
`EnergyCalculator.HEATING_RATES` so the theorems compare the code's table
against the spec's. -/
def spec_surcharge (m : Nat) : ℚ :=
  if m = 11 then 2.43
  else if m = 12 then 4.75
  else if m = 1 then 6.67
  else if m = 2 then 6.76
  else if m = 3 then 4.96
  else 0

/-- `pd.date_range(start, end, freq)` over integer hours: the points
`start, start + f, start + 2f, ...` not exceeding `end_date`; empty when
`start > end`. -/
def date_range (start_date end_date f : Int) : List Int :=
  if 0 < f ∧ start_date ≤ end_date then
    (List.range (((end_date - start_date) / f).toNat + 1)).map
      (fun k : Nat => start_date + (k : Int) * f)
  else []

/-- `simulate_outdoor_temperature`: a deterministic diurnal sinusoid
`base_temp + amplitude * sin(2π (hour − 6) / 24)` sampled on
`date_range start end f`, where the hour of day of an integer hour
timestamp `t` is `t % 24`. -/
noncomputable def simulate_outdoor_temperature (start_date end_date : Int)
    (base_temp amplitude : ℝ) (f : Int) : List (Int × ℝ) :=
  (date_range start_date end_date f).map
    (fun t => (t, base_temp + amplitude * Real.sin (2 * Real.pi * (((t % 24 : Int) : ℝ) - 6) / 24)))

/-- The 100-sample all-January indoor series from the spec's scenario
(distinct days, arbitrary temperature value 20). -/
def jan100 : List (Stamp × ℚ) :=
  (List.range 100).map (fun k => (⟨1, k, 0⟩, (20 : ℚ)))

/-! ### Structural lemmas about the pandas inner merge -/

theorem pd_merge_nil_right (a : List (Int × ℚ)) : pd_merge a [] = [] := by
  induction a with
  | nil => rfl
  | cons p a ih => simp [pd_merge, List.flatMap_cons, ih]

theorem filter_key_nil (b : List (Int × ℚ)) (t : Int) (h : t ∉ b.map Prod.fst) :
    b.filter (fun q => q.1 == t) = [] := by
  induction b with
  | nil => rfl
  | cons q bs ih =>
    simp only [List.map_cons, List.mem_cons] at h
    push_neg at h
    rw [List.filter_cons_of_neg (by simpa using Ne.symm h.1)]
    exact ih h.2

theorem filter_key_map_const {α : Type} (b : List (Int × ℚ)) (t : Int) (c : α)
    (hnd : (b.map Prod.fst).Nodup) :
    (b.filter (fun q => q.1 == t)).map (fun _ => c)
      = if t ∈ b.map Prod.fst then [c] else [] := by
  induction b with
  | nil => simp
  | cons q bs ih =>
    simp only [List.map_cons, List.nodup_cons] at hnd
    by_cases hqt : q.1 = t
    · rw [List.filter_cons_of_pos (by simpa using hqt)]
      rw [filter_key_nil bs t (hqt ▸ hnd.1)]
      simp [hqt]
    · rw [List.filter_cons_of_neg (by simpa using hqt)]
      rw [ih hnd.2]
      by_cases hm : t ∈ List.map Prod.fst bs <;> simp [hm, Ne.symm hqt]

theorem pd_merge_map_fst (a b : List (Int × ℚ)) (h2 : (b.map Prod.fst).Nodup) :
    (pd_merge a b).map Prod.fst
      = (a.map Prod.fst).filter (fun t => decide (t ∈ b.map Prod.fst)) := by
  induction a with
  | nil => rfl
  | cons p a ih =>
    rw [pd_merge, List.flatMap_cons, ← pd_merge, List.map_append, ih]
    rw [List.map_map]
    have hconst : (List.filter (fun q => q.1 == p.1) b).map
        (Prod.fst ∘ fun q : Int × ℚ => (p.1, p.2, q.2))
        = (List.filter (fun q => q.1 == p.1) b).map (fun _ => p.1) := rfl
    rw [hconst, filter_key_map_const b p.1 p.1 h2]
    by_cases hm : p.1 ∈ b.map Prod.fst <;> simp [hm]

theorem pd_merge_mem_of {a b : List (Int × ℚ)} {t : Int} {vi vo : ℚ}
    (hi : (t, vi) ∈ a) (ho : (t, vo) ∈ b) : (t, vi, vo) ∈ pd_merge a b := by
  rw [pd_merge]
  rw [List.mem_flatMap]
  refine ⟨(t, vi), hi, ?_⟩
  rw [List.mem_map]
  exact ⟨(t, vo), List.mem_filter.2 ⟨ho, by simp⟩, rfl⟩

theorem pd_merge_mem_elim {a b : List (Int × ℚ)} {r : Int × ℚ × ℚ}
    (hr : r ∈ pd_merge a b) : (r.1, r.2.1) ∈ a ∧ (r.1, r.2.2) ∈ b := by
  rw [pd_merge, List.mem_flatMap] at hr
  obtain ⟨p, hp, hmem⟩ := hr
  rw [List.mem_map] at hmem
  obtain ⟨q, hq, hrq⟩ := hmem
  rw [List.mem_filter] at hq
  have hkey : q.1 = p.1 := by simpa using hq.2
  subst hrq
  exact ⟨hp, by rw [← hkey] ; exact hq.1⟩

theorem pd_merge_disjoint (a b : List (Int × ℚ))
    (hd : ∀ t ∈ a.map Prod.fst, t ∉ b.map Prod.fst) : pd_merge a b = [] := by
  induction a with
  | nil => rfl
  | cons p a ih =>
    rw [pd_merge, List.flatMap_cons, ← pd_merge]
    rw [filter_key_nil b p.1 (hd p.1 (by simp))]
    simp only [List.map_nil, List.nil_append]
    exact ih (fun t ht => hd t (by simp [ht]))

/-- The five properties the thermal model's output has for any coefficient
pair: indoor-ordered inner-join keys, no duplicate keys, soundness and
completeness of the per-pair energy values, and nonnegativity. -/
theorem thermal_out_spec (c1 c2 : ℚ) (a b : List (Int × ℚ))
    (h1 : (a.map Prod.fst).Nodup) (h2 : (b.map Prod.fst).Nodup) :
    (((pd_merge a b).map (fun r => (r.1, max 0 (c1 * (r.2.1 - r.2.2) + c2)))).map Prod.fst
        = (a.map Prod.fst).filter (fun t => decide (t ∈ b.map Prod.fst)))
    ∧ (((pd_merge a b).map (fun r => (r.1, max 0 (c1 * (r.2.1 - r.2.2) + c2)))).map Prod.fst).Nodup
    ∧ (∀ p ∈ (pd_merge a b).map (fun r => (r.1, max 0 (c1 * (r.2.1 - r.2.2) + c2))),
        ∃ vi vo, (p.1, vi) ∈ a ∧ (p.1, vo) ∈ b ∧ p.2 = max 0 (c1 * (vi - vo) + c2))
    ∧ (∀ t vi vo, (t, vi) ∈ a → (t, vo) ∈ b →
        (t, max 0 (c1 * (vi - vo) + c2))
          ∈ (pd_merge a b).map (fun r => (r.1, max 0 (c1 * (r.2.1 - r.2.2) + c2))))
    ∧ (∀ p ∈ (pd_merge a b).map (fun r => (r.1, max 0 (c1 * (r.2.1 - r.2.2) + c2))), 0 ≤ p.2) := by
  have hfst : ((pd_merge a b).map (fun r => (r.1, max 0 (c1 * (r.2.1 - r.2.2) + c2)))).map Prod.fst
      = (a.map Prod.fst).filter (fun t => decide (t ∈ b.map Prod.fst)) := by
    rw [List.map_map]
    exact pd_merge_map_fst a b h2
  refine ⟨hfst, ?_, ?_, ?_, ?_⟩
  · rw [hfst] ; exact h1.filter _
  · intro p hp
    rw [List.mem_map] at hp
    obtain ⟨r, hr, hrp⟩ := hp
    obtain ⟨hra, hrb⟩ := pd_merge_mem_elim hr
    subst hrp
    exact ⟨r.2.1, r.2.2, hra, hrb, rfl⟩
  · intro t vi vo hi ho
    rw [List.mem_map]
    exact ⟨(t, vi, vo), pd_merge_mem_of hi ho, rfl⟩
  · intro p hp
    rw [List.mem_map] at hp
    obtain ⟨r, _, hrp⟩ := hp
    subst hrp
    exact le_max_left 0 _

/-! ### Thermal coefficient lemmas -/

theorem heating_dominance (d : ℚ) :
    max 0 (MPCCalculator.MPC_C1_HEATING * d + MPCCalculator.C2_HEATING)
      ≤ max 0 (MPCCalculator.RBC_C1_HEATING * d + MPCCalculator.C2_HEATING) := by
  rcases le_total 0 d with h | h
  · have hmul : MPCCalculator.MPC_C1_HEATING * d ≤ MPCCalculator.RBC_C1_HEATING * d :=
      mul_le_mul_of_nonneg_right
        (by norm_num [MPCCalculator.MPC_C1_HEATING, MPCCalculator.RBC_C1_HEATING]) h
    exact max_le_max le_rfl (by linarith)
  · have hmul : MPCCalculator.MPC_C1_HEATING * d ≤ 0 :=
      mul_nonpos_of_nonneg_of_nonpos (by norm_num [MPCCalculator.MPC_C1_HEATING]) h
    have hle : MPCCalculator.MPC_C1_HEATING * d + MPCCalculator.C2_HEATING ≤ 0 := by
      norm_num [MPCCalculator.C2_HEATING] ; linarith
    rw [max_eq_left hle]
    exact le_max_left 0 _

theorem heating_savings_nonneg (a b : List (Int × ℚ)) :
    0 ≤ MPCCalculator.calculate_total_energy_savings
        (MPCCalculator.calculate_energy_consumption "heating" "mpc" a b)
        (MPCCalculator.calculate_energy_consumption "heating" "rbc" a b) := by
  have hne : ("rbc" : String) ≠ "mpc" := by decide
  have hmpc : MPCCalculator.calculate_energy_consumption "heating" "mpc" a b
      = (pd_merge a b).map (fun r => (r.1,
          max 0 (MPCCalculator.MPC_C1_HEATING * (r.2.1 - r.2.2) + MPCCalculator.C2_HEATING))) := by
    simp [MPCCalculator.calculate_energy_consumption]
  have hrbc : MPCCalculator.calculate_energy_consumption "heating" "rbc" a b
      = (pd_merge a b).map (fun r => (r.1,
          max 0 (MPCCalculator.RBC_C1_HEATING * (r.2.1 - r.2.2) + MPCCalculator.C2_HEATING))) := by
    simp [MPCCalculator.calculate_energy_consumption, hne]
  rw [MPCCalculator.calculate_total_energy_savings, hmpc, hrbc]
  simp only [List.map_map]
  have hsum : ((pd_merge a b).map (Prod.snd ∘ fun r => (r.1,
        max 0 (MPCCalculator.MPC_C1_HEATING * (r.2.1 - r.2.2) + MPCCalculator.C2_HEATING)))).sum
      ≤ ((pd_merge a b).map (Prod.snd ∘ fun r => (r.1,
        max 0 (MPCCalculator.RBC_C1_HEATING * (r.2.1 - r.2.2) + MPCCalculator.C2_HEATING)))).sum := by
    apply List.sum_le_sum
    intro r _
    exact heating_dominance (r.2.1 - r.2.2)
  apply div_nonneg _ (by norm_num)
  linarith

/-! ### Baseline model lemmas -/

theorem rate_eq (m : Nat) :
    EnergyCalculator.BASE_RATE + EnergyCalculator.HEATING_RATES m = 2.42 + spec_surcharge m := by
  rw [EnergyCalculator.BASE_RATE, EnergyCalculator.BASE_RATE_ELECTRIC,
    EnergyCalculator.BASE_RATE_GAS, EnergyCalculator.HEATING_RATES, spec_surcharge]
  split_ifs <;> norm_num

theorem baseline_out_eq (indoor outdoor : List (Stamp × ℚ)) :
    EnergyCalculator.calculate_energy_consumption indoor outdoor
      = indoor.map (fun p => (p.1, (2.42 : ℚ) + spec_surcharge p.1.month)) := by
  rw [EnergyCalculator.calculate_energy_consumption]
  apply List.map_congr_left
  intro p _
  rw [rate_eq]

theorem baseline_ignores_values (indoor outdoor indoor2 outdoor2 : List (Stamp × ℚ))
    (h : indoor.map Prod.fst = indoor2.map Prod.fst) :
    EnergyCalculator.calculate_energy_consumption indoor outdoor
      = EnergyCalculator.calculate_energy_consumption indoor2 outdoor2 := by
  have key : ∀ l o : List (Stamp × ℚ),
      EnergyCalculator.calculate_energy_consumption l o
        = (l.map Prod.fst).map
            (fun t => (t, EnergyCalculator.BASE_RATE + EnergyCalculator.HEATING_RATES t.month)) := by
    intro l o
    rw [EnergyCalculator.calculate_energy_consumption, List.map_map]
    rfl
  rw [key indoor outdoor, key indoor2 outdoor2, h]

theorem sum_map_add_const {α : Type} (a : ℚ) (f : α → ℚ) (l : List α) :
    (l.map (fun x => a + f x)).sum = l.length * a + (l.map f).sum := by
  induction l with
  | nil => simp
  | cons x xs ih =>
    simp only [List.map_cons, List.sum_cons, ih, List.length_cons]
    push_cast
    ring

theorem sum_map_mul_const {α : Type} (r : ℚ) (f : α → ℚ) (l : List α) :
    (l.map (fun x => f x * r)).sum = (l.map f).sum * r := by
  induction l with
  | nil => simp
  | cons x xs ih => simp only [List.map_cons, List.sum_cons, ih] ; ring

theorem cost_decomposition_eq (indoor outdoor : List (Stamp × ℚ)) :
    (EnergyCalculator.calculate_all_metrics indoor outdoor).cost_usd
      = (indoor.length : ℚ) * 2.08 * 0.15
        + (indoor.map (fun p => ((0.34 : ℚ) + spec_surcharge p.1.month) * 0.0226)).sum := by
  rw [EnergyCalculator.calculate_all_metrics]
  simp only [EnergyCalculator.calculate_energy_consumption, List.map_map, List.length_map]
  have hgas : (indoor.map
        ((fun p : Stamp × ℚ => EnergyCalculator.BASE_RATE_GAS
            + EnergyCalculator.HEATING_RATES p.1.month) ∘
          fun p : Stamp × ℚ => (p.1,
            EnergyCalculator.BASE_RATE + EnergyCalculator.HEATING_RATES p.1.month))).sum
      = (indoor.map (fun p : Stamp × ℚ => (0.34 : ℚ) + spec_surcharge p.1.month)).sum := by
    apply congrArg
    apply List.map_congr_left
    intro p _
    show EnergyCalculator.BASE_RATE_GAS + EnergyCalculator.HEATING_RATES p.1.month
      = 0.34 + spec_surcharge p.1.month
    rw [EnergyCalculator.BASE_RATE_GAS, EnergyCalculator.HEATING_RATES, spec_surcharge]
  rw [hgas,
    sum_map_mul_const 0.0226 (fun p : Stamp × ℚ => (0.34 : ℚ) + spec_surcharge p.1.month) indoor]
  rw [EnergyCalculator.BASE_RATE_ELECTRIC, EnergyCalculator.ELECTRIC_RATE,
    EnergyCalculator.GAS_RATE]

theorem baseline_total_eq (indoor outdoor : List (Stamp × ℚ)) :
    (EnergyCalculator.calculate_all_metrics indoor outdoor).total_energy_kwh
      = (indoor.map (fun p => (2.42 : ℚ) + EnergyCalculator.HEATING_RATES p.1.month)).sum := by
  show EnergyCalculator.calculate_total_energy
      (EnergyCalculator.calculate_energy_consumption indoor outdoor)
    = (indoor.map (fun p => (2.42 : ℚ) + EnergyCalculator.HEATING_RATES p.1.month)).sum
  rw [EnergyCalculator.calculate_total_energy, EnergyCalculator.calculate_energy_consumption,
    List.map_map]
  apply congrArg
  apply List.map_congr_left
  intro p _
  show EnergyCalculator.BASE_RATE + EnergyCalculator.HEATING_RATES p.1.month
    = 2.42 + EnergyCalculator.HEATING_RATES p.1.month
  norm_num [EnergyCalculator.BASE_RATE, EnergyCalculator.BASE_RATE_ELECTRIC,
    EnergyCalculator.BASE_RATE_GAS]

theorem jan100_len : jan100.length = 100 := by
  rw [jan100, List.length_map, List.length_range]

theorem jan_total_eq : (EnergyCalculator.calculate_all_metrics jan100 []).total_energy_kwh = 909 := by
  rw [EnergyCalculator.calculate_all_metrics]
  show EnergyCalculator.calculate_total_energy
      (EnergyCalculator.calculate_energy_consumption jan100 []) = 909
  rw [EnergyCalculator.calculate_total_energy, EnergyCalculator.calculate_energy_consumption,
    jan100]
  simp only [List.map_map]
  have hc : (Prod.snd ∘ ((fun p : Stamp × ℚ => (p.1,
        EnergyCalculator.BASE_RATE + EnergyCalculator.HEATING_RATES p.1.month)) ∘
        fun k => ((⟨1, k, 0⟩ : Stamp), (20 : ℚ))))
      = fun _ => EnergyCalculator.BASE_RATE + EnergyCalculator.HEATING_RATES 1 := rfl
  rw [hc]
  have hrep : (List.range 100).map
        (fun _ : Nat => EnergyCalculator.BASE_RATE + EnergyCalculator.HEATING_RATES 1)
      = List.replicate 100 (EnergyCalculator.BASE_RATE + EnergyCalculator.HEATING_RATES 1) := by
    simp [List.map_const]
  rw [hrep, List.sum_replicate]
  norm_num [EnergyCalculator.BASE_RATE, EnergyCalculator.BASE_RATE_ELECTRIC,
    EnergyCalculator.BASE_RATE_GAS, EnergyCalculator.HEATING_RATES]

theorem jan_cost_eq : (EnergyCalculator.calculate_all_metrics jan100 []).cost_usd
    = 100 * 2.08 * 0.15 + 100 * ((0.34 : ℚ) + 6.67) * 0.0226 := by
  rw [cost_decomposition_eq, jan100_len]
  have hc : jan100.map (fun p : Stamp × ℚ => ((0.34 : ℚ) + spec_surcharge p.1.month) * 0.0226)
      = List.replicate 100 (((0.34 : ℚ) + spec_surcharge 1) * 0.0226) := by
    rw [jan100, List.map_map]
    have hcomp : ((fun p : Stamp × ℚ => ((0.34 : ℚ) + spec_surcharge p.1.month) * 0.0226) ∘
          fun k => ((⟨1, k, 0⟩ : Stamp), (20 : ℚ)))
        = fun _ : Nat => ((0.34 : ℚ) + spec_surcharge 1) * 0.0226 := rfl
    rw [hcomp]
    simp [List.map_const]
  rw [hc, List.sum_replicate]
  norm_num [spec_surcharge]

/-! ### Synthetic generator lemmas -/

theorem date_range_mem (start_date end_date f : Int) (hf : 0 < f) (t : Int) :
    t ∈ date_range start_date end_date f
      ↔ ∃ k : Nat, t = start_date + (k : Int) * f ∧ t ≤ end_date := by
  rw [date_range]
  by_cases hse : start_date ≤ end_date
  · rw [if_pos ⟨hf, hse⟩]
    constructor
    · intro ht
      obtain ⟨k, hk, hkt⟩ := List.mem_map.1 ht
      rw [List.mem_range, Nat.lt_succ_iff] at hk
      refine ⟨k, hkt.symm, ?_⟩
      have hk2 : (k : Int) ≤ (end_date - start_date) / f := by
        calc (k : Int) ≤ (((end_date - start_date) / f).toNat : Int) := by exact_mod_cast hk
          _ = (end_date - start_date) / f := Int.toNat_of_nonneg
              (Int.ediv_nonneg (by linarith) (le_of_lt hf))
      have hmul : (k : Int) * f ≤ (end_date - start_date) / f * f :=
        mul_le_mul_of_nonneg_right hk2 (le_of_lt hf)
      have hdiv : (end_date - start_date) / f * f ≤ end_date - start_date :=
        Int.ediv_mul_le _ (ne_of_gt hf)
      linarith [hkt.symm ▸ (by linarith : start_date + (k : Int) * f ≤ end_date)]
    · rintro ⟨k, rfl, hle⟩
      apply List.mem_map.2
      refine ⟨k, ?_, rfl⟩
      rw [List.mem_range, Nat.lt_succ_iff]
      have hkf : (k : Int) * f ≤ end_date - start_date := by linarith
      have hk2 : (k : Int) ≤ (end_date - start_date) / f :=
        (Int.le_ediv_iff_mul_le hf).2 hkf
      have h0 : (0 : Int) ≤ (end_date - start_date) / f :=
        Int.ediv_nonneg (by linarith [mul_nonneg (Int.ofNat_nonneg k) (le_of_lt hf)])
          (le_of_lt hf)
      omega
  · rw [if_neg (fun hand => hse hand.2)]
    simp only [List.not_mem_nil, false_iff]
    rintro ⟨k, rfl, hle⟩
    have : (0 : Int) ≤ (k : Int) * f := mul_nonneg (Int.ofNat_nonneg k) (le_of_lt hf)
    exact hse (by linarith)

/-! ### Claim theorems -/

/-- Claim C1, counterexample: the thermal model's output value is not
`max(0, 0.19583333 * (T_indoor - T_outdoor) - 8)` for heating/RBC — the
code's coefficient is `0.1958333333` (ten decimals, not eight), so at
`T_indoor = 100, T_outdoor = 0` the code produces `11.58333333` while the
claim's table predicts `11.583333`. -/
theorem thermal_rounded_coefficients_counterexample :
    MPCCalculator.calculate_energy_consumption "heating" "rbc"
        [((0 : Int), (100 : ℚ))] [((0 : Int), (0 : ℚ))]
      = [((0 : Int), (11.58333333 : ℚ))]
    ∧ MPCCalculator.calculate_energy_consumption "heating" "rbc"
        [((0 : Int), (100 : ℚ))] [((0 : Int), (0 : ℚ))]
      ≠ [((0 : Int), max 0 ((0.19583333 : ℚ) * (100 - 0) + (-8)))] := by
  have hne : ("rbc" : String) ≠ "mpc" := by decide
  constructor
  · simp only [MPCCalculator.calculate_energy_consumption, pd_merge,
      MPCCalculator.RBC_C1_HEATING, MPCCalculator.C2_HEATING, hne, if_false]
    norm_num [max_eq_right]
  · simp only [MPCCalculator.calculate_energy_consumption, pd_merge,
      MPCCalculator.RBC_C1_HEATING, MPCCalculator.C2_HEATING, hne, if_false]
    norm_num [max_eq_right]

/-- Claim C1, amended: for series with unique timestamps, the thermal
model's output is the inner join of the two inputs on exact timestamp
match, one sample per common timestamp in indoor order, and each output
energy equals `max(0, c1 * (T_indoor - T_outdoor) + c2)` with `(c1, c2)`
taken from the code's full-precision table (heating/RBC `0.1958333333`,
heating/MPC `0.1595833333`, cooling/RBC `0.1266666667`, cooling/MPC
`0.1091666667`, with `c2 = -8` for heating and `6.4` for cooling); no
output energy value is negative. -/
theorem thermal_energy_consumption_correct (mode control_type : String) (c1 c2 : ℚ)
    (htab : (mode, control_type, c1, c2) ∈
      [("heating", "rbc", (0.1958333333 : ℚ), (-8 : ℚ)),
       ("heating", "mpc", 0.1595833333, -8),
       ("cooling", "rbc", 0.1266666667, 6.4),
       ("cooling", "mpc", 0.1091666667, 6.4)])
    (a b : List (Int × ℚ))
    (h1 : (a.map Prod.fst).Nodup) (h2 : (b.map Prod.fst).Nodup) :
    ((MPCCalculator.calculate_energy_consumption mode control_type a b).map Prod.fst
        = (a.map Prod.fst).filter (fun t => decide (t ∈ b.map Prod.fst)))
    ∧ ((MPCCalculator.calculate_energy_consumption mode control_type a b).map Prod.fst).Nodup
    ∧ (∀ p ∈ MPCCalculator.calculate_energy_consumption mode control_type a b,
        ∃ vi vo, (p.1, vi) ∈ a ∧ (p.1, vo) ∈ b ∧ p.2 = max 0 (c1 * (vi - vo) + c2))
    ∧ (∀ t vi vo, (t, vi) ∈ a → (t, vo) ∈ b →
        (t, max 0 (c1 * (vi - vo) + c2))
          ∈ MPCCalculator.calculate_energy_consumption mode control_type a b)
    ∧ (∀ p ∈ MPCCalculator.calculate_energy_consumption mode control_type a b, 0 ≤ p.2) := by
  simp only [List.mem_cons, List.not_mem_nil, or_false, Prod.mk.injEq] at htab
  rcases htab with ⟨hm, hc, h3, h4⟩ | ⟨hm, hc, h3, h4⟩ | ⟨hm, hc, h3, h4⟩ | ⟨hm, hc, h3, h4⟩ <;>
      subst hm <;> subst hc <;> subst h3 <;> subst h4
  · have heq : MPCCalculator.calculate_energy_consumption "heating" "rbc" a b
        = (pd_merge a b).map
            (fun r => (r.1, max 0 ((0.1958333333 : ℚ) * (r.2.1 - r.2.2) + (-8 : ℚ)))) := by
      simp [MPCCalculator.calculate_energy_consumption, MPCCalculator.RBC_C1_HEATING,
        MPCCalculator.C2_HEATING]
    rw [heq] ; exact thermal_out_spec _ _ a b h1 h2
  · have heq : MPCCalculator.calculate_energy_consumption "heating" "mpc" a b
        = (pd_merge a b).map
            (fun r => (r.1, max 0 ((0.1595833333 : ℚ) * (r.2.1 - r.2.2) + (-8 : ℚ)))) := by
      simp [MPCCalculator.calculate_energy_consumption, MPCCalculator.MPC_C1_HEATING,
        MPCCalculator.C2_HEATING]
    rw [heq] ; exact thermal_out_spec _ _ a b h1 h2
  · have heq : MPCCalculator.calculate_energy_consumption "cooling" "rbc" a b
        = (pd_merge a b).map
            (fun r => (r.1, max 0 ((0.1266666667 : ℚ) * (r.2.1 - r.2.2) + (6.4 : ℚ)))) := by
      simp [MPCCalculator.calculate_energy_consumption, MPCCalculator.RBC_C1_COOLING,
        MPCCalculator.C2_COOLING]
    rw [heq] ; exact thermal_out_spec _ _ a b h1 h2
  · have heq : MPCCalculator.calculate_energy_consumption "cooling" "mpc" a b
        = (pd_merge a b).map
            (fun r => (r.1, max 0 ((0.1091666667 : ℚ) * (r.2.1 - r.2.2) + (6.4 : ℚ)))) := by
      simp [MPCCalculator.calculate_energy_consumption, MPCCalculator.MPC_C1_COOLING,
        MPCCalculator.C2_COOLING]
    rw [heq] ; exact thermal_out_spec _ _ a b h1 h2

/-- Witness for the amended C1 theorem at heating/RBC on one matching
timestamp pair. -/
theorem thermal_energy_consumption_correct_witness :
    (("heating", "rbc", (0.1958333333 : ℚ), (-8 : ℚ)) ∈
      [("heating", "rbc", (0.1958333333 : ℚ), (-8 : ℚ)),
       ("heating", "mpc", 0.1595833333, -8),
       ("cooling", "rbc", 0.1266666667, 6.4),
       ("cooling", "mpc", 0.1091666667, 6.4)])
    ∧ (([((0 : Int), (50 : ℚ))].map Prod.fst).Nodup)
    ∧ (([((0 : Int), (40 : ℚ))].map Prod.fst).Nodup)
    ∧ ((MPCCalculator.calculate_energy_consumption "heating" "rbc"
          [((0 : Int), (50 : ℚ))] [((0 : Int), (40 : ℚ))]).map Prod.fst
        = ([((0 : Int), (50 : ℚ))].map Prod.fst).filter
            (fun t => decide (t ∈ [((0 : Int), (40 : ℚ))].map Prod.fst))) :=
  ⟨List.mem_cons_self _ _, by decide, by decide,
    (thermal_energy_consumption_correct "heating" "rbc" 0.1958333333 (-8)
      (List.mem_cons_self _ _)
      [((0 : Int), (50 : ℚ))] [((0 : Int), (40 : ℚ))] (by decide) (by decide)).1⟩

/-- Claim C2: the baseline model emits one sample per input timestamp with
value exactly `2.42 + surcharge(month)` (surcharge 2.43/4.75/6.67/6.76/4.96
for months 11/12/1/2/3 and 0 otherwise), `baseline_rate(1) = 9.09`,
`baseline_rate(7) = 2.42`, and the input temperature values (and the whole
outdoor series) are ignored. -/
theorem baseline_energy_consumption_correct
    (indoor outdoor indoor2 outdoor2 : List (Stamp × ℚ))
    (h : indoor.map Prod.fst = indoor2.map Prod.fst) :
    (EnergyCalculator.calculate_energy_consumption indoor outdoor
        = indoor.map (fun p => (p.1, (2.42 : ℚ) + spec_surcharge p.1.month)))
    ∧ EnergyCalculator.BASE_RATE + EnergyCalculator.HEATING_RATES 1 = 9.09
    ∧ EnergyCalculator.BASE_RATE + EnergyCalculator.HEATING_RATES 7 = 2.42
    ∧ EnergyCalculator.calculate_energy_consumption indoor outdoor
        = EnergyCalculator.calculate_energy_consumption indoor2 outdoor2 := by
  refine ⟨baseline_out_eq indoor outdoor, ?_, ?_,
    baseline_ignores_values indoor outdoor indoor2 outdoor2 h⟩
  · norm_num [EnergyCalculator.BASE_RATE, EnergyCalculator.BASE_RATE_ELECTRIC,
      EnergyCalculator.BASE_RATE_GAS, EnergyCalculator.HEATING_RATES]
  · norm_num [EnergyCalculator.BASE_RATE, EnergyCalculator.BASE_RATE_ELECTRIC,
      EnergyCalculator.BASE_RATE_GAS, EnergyCalculator.HEATING_RATES]

/-- Witness for C2: two series with the same timestamps but different
temperature values give the same baseline output. -/
theorem baseline_energy_consumption_correct_witness :
    ([((⟨1, 1, 0⟩ : Stamp), (20 : ℚ))].map Prod.fst
        = [((⟨1, 1, 0⟩ : Stamp), (99 : ℚ))].map Prod.fst)
    ∧ EnergyCalculator.calculate_energy_consumption [((⟨1, 1, 0⟩ : Stamp), (20 : ℚ))] []
        = EnergyCalculator.calculate_energy_consumption [((⟨1, 1, 0⟩ : Stamp), (99 : ℚ))]
            [((⟨7, 2, 3⟩ : Stamp), (5 : ℚ))] :=
  ⟨by decide,
    (baseline_energy_consumption_correct [((⟨1, 1, 0⟩ : Stamp), (20 : ℚ))] []
      [((⟨1, 1, 0⟩ : Stamp), (99 : ℚ))] [((⟨7, 2, 3⟩ : Stamp), (5 : ℚ))] (by decide)).2.2.2⟩

/-- Claim C3: the baseline cost is the electric component
`count * 2.08 * 0.15` plus the gas component
`Σ (0.34 + surcharge(month)) * 0.0226`, not `total_energy_kwh * 0.15`;
on 100 January samples the total energy is 909 kWh and the cost is
`100*2.08*0.15 + 100*(0.34+6.67)*0.0226`. -/
theorem baseline_cost_decomposition_correct :
    (∀ indoor outdoor : List (Stamp × ℚ),
      (EnergyCalculator.calculate_all_metrics indoor outdoor).cost_usd
        = (indoor.length : ℚ) * 2.08 * 0.15
          + (indoor.map (fun p => ((0.34 : ℚ) + spec_surcharge p.1.month) * 0.0226)).sum)
    ∧ (EnergyCalculator.calculate_all_metrics jan100 []).total_energy_kwh = 909
    ∧ (EnergyCalculator.calculate_all_metrics jan100 []).cost_usd
        = 100 * 2.08 * 0.15 + 100 * ((0.34 : ℚ) + 6.67) * 0.0226
    ∧ (EnergyCalculator.calculate_all_metrics jan100 []).cost_usd
        ≠ (EnergyCalculator.calculate_all_metrics jan100 []).total_energy_kwh * 0.15 := by
  refine ⟨cost_decomposition_eq, jan_total_eq, jan_cost_eq, ?_⟩
  rw [jan_total_eq, jan_cost_eq]
  norm_num

/-- Claim C4: `calculate_total_energy_savings` is exactly
`(Σ rbc energy − Σ mpc energy) / 1000`. -/
theorem total_energy_savings_formula (mpc_energy_df rbc_energy_df : List (Int × ℚ)) :
    MPCCalculator.calculate_total_energy_savings mpc_energy_df rbc_energy_df
      = ((rbc_energy_df.map Prod.snd).sum - (mpc_energy_df.map Prod.snd).sum) / 1000 := rfl

/-- Claim C5, counterexample: the thermal model does not fail on an
invalid mode or control strategy — with mode `"banana"` and strategy
`"zigzag"` it silently computes with the cooling/RBC coefficients and
returns a normal, non-error output. -/
theorem invalid_mode_silent_default_counterexample :
    MPCCalculator.calculate_energy_consumption "banana" "zigzag"
        [((0 : Int), (30 : ℚ))] [((0 : Int), (10 : ℚ))]
      = MPCCalculator.calculate_energy_consumption "cooling" "rbc"
          [((0 : Int), (30 : ℚ))] [((0 : Int), (10 : ℚ))]
    ∧ MPCCalculator.calculate_energy_consumption "banana" "zigzag"
        [((0 : Int), (30 : ℚ))] [((0 : Int), (10 : ℚ))]
      = [((0 : Int), max 0 (MPCCalculator.RBC_C1_COOLING * (30 - 10)
          + MPCCalculator.C2_COOLING))] := by
  have hm : ("banana" : String) ≠ "heating" := by decide
  have hc : ("zigzag" : String) ≠ "mpc" := by decide
  have hm2 : ("cooling" : String) ≠ "heating" := by decide
  have hc2 : ("rbc" : String) ≠ "mpc" := by decide
  constructor
  · simp [MPCCalculator.calculate_energy_consumption, hm, hc, hm2, hc2]
  · simp [MPCCalculator.calculate_energy_consumption, pd_merge, hm, hc]

/-- Claim C5, amended: the two fallbacks are independent — a mode outside
{heating} (in particular outside {heating, cooling}) silently selects the
cooling coefficient set whatever the control strategy is, and a control
strategy outside {mpc} (in particular outside {mpc, rbc}) silently
selects the RBC coefficient whatever the mode is; when both are invalid
the output equals the cooling/RBC output.  No configuration error is
raised in any of these cases. -/
theorem invalid_mode_fallback_correct (mode control_type : String)
    (a b : List (Int × ℚ)) :
    (mode ≠ "heating" →
      MPCCalculator.calculate_energy_consumption mode control_type a b
        = MPCCalculator.calculate_energy_consumption "cooling" control_type a b)
    ∧ (control_type ≠ "mpc" →
      MPCCalculator.calculate_energy_consumption mode control_type a b
        = MPCCalculator.calculate_energy_consumption mode "rbc" a b)
    ∧ (mode ≠ "heating" → control_type ≠ "mpc" →
      MPCCalculator.calculate_energy_consumption mode control_type a b
        = MPCCalculator.calculate_energy_consumption "cooling" "rbc" a b) := by
  have hm2 : ("cooling" : String) ≠ "heating" := by decide
  have hc2 : ("rbc" : String) ≠ "mpc" := by decide
  refine ⟨fun hm => ?_, fun hc => ?_, fun hm hc => ?_⟩
  · simp [MPCCalculator.calculate_energy_consumption, hm, hm2]
  · simp [MPCCalculator.calculate_energy_consumption, hc, hc2]
  · simp [MPCCalculator.calculate_energy_consumption, hm, hc, hm2, hc2]

/-- Witness for the amended C5 theorem: an invalid mode with a valid
strategy falls back to cooling/MPC, a valid mode with an invalid strategy
falls back to heating/RBC, and an invalid pair falls back to
cooling/RBC. -/
theorem invalid_mode_fallback_correct_witness :
    (("banana" : String) ≠ "heating")
    ∧ (("zigzag" : String) ≠ "mpc")
    ∧ MPCCalculator.calculate_energy_consumption "banana" "mpc"
          [((3 : Int), (25 : ℚ))] [((3 : Int), (5 : ℚ))]
        = MPCCalculator.calculate_energy_consumption "cooling" "mpc"
            [((3 : Int), (25 : ℚ))] [((3 : Int), (5 : ℚ))]
    ∧ MPCCalculator.calculate_energy_consumption "heating" "zigzag"
          [((3 : Int), (25 : ℚ))] [((3 : Int), (5 : ℚ))]
        = MPCCalculator.calculate_energy_consumption "heating" "rbc"
            [((3 : Int), (25 : ℚ))] [((3 : Int), (5 : ℚ))]
    ∧ MPCCalculator.calculate_energy_consumption "banana" "zigzag"
          [((3 : Int), (25 : ℚ))] [((3 : Int), (5 : ℚ))]
        = MPCCalculator.calculate_energy_consumption "cooling" "rbc"
            [((3 : Int), (25 : ℚ))] [((3 : Int), (5 : ℚ))] :=
  ⟨by decide, by decide,
    (invalid_mode_fallback_correct "banana" "mpc"
      [((3 : Int), (25 : ℚ))] [((3 : Int), (5 : ℚ))]).1 (by decide),
    (invalid_mode_fallback_correct "heating" "zigzag"
      [((3 : Int), (25 : ℚ))] [((3 : Int), (5 : ℚ))]).2.1 (by decide),
    (invalid_mode_fallback_correct "banana" "zigzag"
      [((3 : Int), (25 : ℚ))] [((3 : Int), (5 : ℚ))]).2.2 (by decide) (by decide)⟩

theorem base_metrics_empty (outdoorS : List (Stamp × ℚ)) :
    EnergyCalculator.calculate_all_metrics [] outdoorS
      = ⟨0, 0, 0, 0, []⟩ := by
  rw [EnergyCalculator.calculate_all_metrics]
  show (⟨EnergyCalculator.calculate_total_energy [], _, _, _, _⟩ : EnergyCalculator.Metrics)
    = ⟨0, 0, 0, 0, []⟩
  norm_num [EnergyCalculator.calculate_total_energy, EnergyCalculator.calculate_co2_emissions,
    EnergyCalculator.calculate_equivalent_km_driven, EnergyCalculator.calculate_energy_consumption]

/-- Claim C6: empty inputs are handled without error — the baseline model
returns an empty series and all-zero metrics on an empty indoor series, and
the thermal model returns an empty series when either input is empty or
when the two inputs share no timestamp. -/
theorem empty_input_zero_metrics (mode control_type : String)
    (outdoorS : List (Stamp × ℚ)) (a b : List (Int × ℚ))
    (hd : ∀ t ∈ a.map Prod.fst, t ∉ b.map Prod.fst) :
    EnergyCalculator.calculate_energy_consumption [] outdoorS = []
    ∧ (EnergyCalculator.calculate_all_metrics [] outdoorS).total_energy_kwh = 0
    ∧ (EnergyCalculator.calculate_all_metrics [] outdoorS).cost_usd = 0
    ∧ (EnergyCalculator.calculate_all_metrics [] outdoorS).co2_kg = 0
    ∧ (EnergyCalculator.calculate_all_metrics [] outdoorS).equivalent_km = 0
    ∧ MPCCalculator.calculate_energy_consumption mode control_type [] b = []
    ∧ MPCCalculator.calculate_energy_consumption mode control_type a [] = []
    ∧ MPCCalculator.calculate_energy_consumption mode control_type a b = [] := by
  refine ⟨rfl, ?_, ?_, ?_, ?_, rfl, ?_, ?_⟩
  · rw [base_metrics_empty]
  · rw [base_metrics_empty]
  · rw [base_metrics_empty]
  · rw [base_metrics_empty]
  · simp [MPCCalculator.calculate_energy_consumption, pd_merge_nil_right]
  · simp [MPCCalculator.calculate_energy_consumption, pd_merge_disjoint a b hd]

/-- Witness for C6 at concrete disjoint series. -/
theorem empty_input_zero_metrics_witness :
    (∀ t ∈ [((0 : Int), (1 : ℚ))].map Prod.fst,
      t ∉ [((1 : Int), (2 : ℚ))].map Prod.fst)
    ∧ MPCCalculator.calculate_energy_consumption "heating" "mpc"
        [((0 : Int), (1 : ℚ))] [((1 : Int), (2 : ℚ))] = [] :=
  ⟨by decide,
    (empty_input_zero_metrics "heating" "mpc" []
      [((0 : Int), (1 : ℚ))] [((1 : Int), (2 : ℚ))] (by decide)).2.2.2.2.2.2.2⟩

/-- Claim C7: the metrics aggregator computes `cost = energy * rate`
(default 0.15), `co2 = energy * intensity` (default 0.417) and
`equivalent distance = co2 / intensity` (default 0.222); with these
defaults each is strictly increasing in energy on `energy ≥ 0` and is 0
at `energy = 0`. -/
theorem metrics_aggregator_monotone (e1 e2 : ℚ) (h0 : 0 ≤ e1) (h12 : e1 < e2) :
    (∀ e r : ℚ, EnergyCalculator.calculate_cost e r = e * r)
    ∧ (∀ e r : ℚ, EnergyCalculator.calculate_co2_emissions e r = e * r)
    ∧ (∀ c r : ℚ, EnergyCalculator.calculate_equivalent_km_driven c r = c / r)
    ∧ EnergyCalculator.calculate_cost e1 0.15 < EnergyCalculator.calculate_cost e2 0.15
    ∧ EnergyCalculator.calculate_co2_emissions e1 0.417
        < EnergyCalculator.calculate_co2_emissions e2 0.417
    ∧ EnergyCalculator.calculate_equivalent_km_driven
          (EnergyCalculator.calculate_co2_emissions e1 0.417) 0.222
        < EnergyCalculator.calculate_equivalent_km_driven
            (EnergyCalculator.calculate_co2_emissions e2 0.417) 0.222
    ∧ EnergyCalculator.calculate_cost 0 0.15 = 0
    ∧ EnergyCalculator.calculate_co2_emissions 0 0.417 = 0
    ∧ EnergyCalculator.calculate_equivalent_km_driven
        (EnergyCalculator.calculate_co2_emissions 0 0.417) 0.222 = 0 := by
  rw [EnergyCalculator.calculate_cost, EnergyCalculator.calculate_cost,
    EnergyCalculator.calculate_co2_emissions, EnergyCalculator.calculate_co2_emissions,
    EnergyCalculator.calculate_equivalent_km_driven,
    EnergyCalculator.calculate_equivalent_km_driven,
    EnergyCalculator.calculate_co2_emissions, EnergyCalculator.calculate_cost,
    EnergyCalculator.calculate_equivalent_km_driven]
  refine ⟨fun e r => rfl, fun e r => rfl, fun c r => rfl,
    by nlinarith, by nlinarith, ?_, by ring, by ring, by norm_num⟩
  rw [div_lt_div_right (by norm_num : (0 : ℚ) < 0.222)]
  nlinarith

/-- Witness for C7 at `e1 = 0`, `e2 = 1`. -/
theorem metrics_aggregator_monotone_witness :
    (0 : ℚ) ≤ 0 ∧ (0 : ℚ) < 1
    ∧ EnergyCalculator.calculate_cost 0 0.15 < EnergyCalculator.calculate_cost 1 0.15 :=
  ⟨le_refl 0, by norm_num, (metrics_aggregator_monotone 0 1 (le_refl 0) (by norm_num)).2.2.2.1⟩

theorem simulate_empty (start_date end_date : Int) (base_temp amplitude : ℝ) (f : Int)
    (h : end_date < start_date) :
    simulate_outdoor_temperature start_date end_date base_temp amplitude f = [] := by
  rw [simulate_outdoor_temperature, date_range,
    if_neg (fun hand => absurd hand.2 (not_le.2 h))]
  rfl

theorem simulate_fst (start_date end_date : Int) (base_temp amplitude : ℝ) (f : Int) :
    (simulate_outdoor_temperature start_date end_date base_temp amplitude f).map Prod.fst
      = date_range start_date end_date f := by
  rw [simulate_outdoor_temperature, List.map_map]
  exact List.map_id _

theorem simulate_val (start_date end_date : Int) (base_temp amplitude : ℝ) (f : Int) :
    ∀ p ∈ simulate_outdoor_temperature start_date end_date base_temp amplitude f,
      p.2 = base_temp + amplitude * Real.sin (2 * Real.pi * (((p.1 % 24 : Int) : ℝ) - 6) / 24) := by
  intro p hp
  rw [simulate_outdoor_temperature, List.mem_map] at hp
  obtain ⟨t, _, rfl⟩ := hp
  rfl

/-- Claim C8: the synthetic generator is deterministic, empty when
`start > end`, its timestamps are exactly `start + k * freq ≤ end` for
natural `k` (covering `[start, end]` at the given cadence), and every
value is `base_temp + amplitude * sin(2π (hour_of_timestamp − 6) / 24)`
where the hour of day of timestamp `t` is `t % 24`. -/
theorem simulate_outdoor_temperature_correct (start_date end_date : Int)
    (base_temp amplitude : ℝ) (f : Int) (hf : 0 < f) :
    (end_date < start_date →
      simulate_outdoor_temperature start_date end_date base_temp amplitude f = [])
    ∧ ((simulate_outdoor_temperature start_date end_date base_temp amplitude f).map Prod.fst
        = date_range start_date end_date f)
    ∧ (∀ t : Int, t ∈ date_range start_date end_date f
        ↔ ∃ k : Nat, t = start_date + (k : Int) * f ∧ t ≤ end_date)
    ∧ (∀ p ∈ simulate_outdoor_temperature start_date end_date base_temp amplitude f,
        p.2 = base_temp + amplitude * Real.sin (2 * Real.pi * (((p.1 % 24 : Int) : ℝ) - 6) / 24))
    ∧ (∀ (s2 e2 : Int) (b2 a2 : ℝ) (f2 : Int),
        s2 = start_date → e2 = end_date → b2 = base_temp → a2 = amplitude → f2 = f →
        simulate_outdoor_temperature s2 e2 b2 a2 f2
          = simulate_outdoor_temperature start_date end_date base_temp amplitude f) := by
  refine ⟨simulate_empty start_date end_date base_temp amplitude f,
    simulate_fst start_date end_date base_temp amplitude f,
    date_range_mem start_date end_date f hf,
    simulate_val start_date end_date base_temp amplitude f, ?_⟩
  rintro s2 e2 b2 a2 f2 rfl rfl rfl rfl rfl
  rfl

/-- Witness for C8 at the empty case `start = 5 > 3 = end`. -/
theorem simulate_outdoor_temperature_correct_witness :
    ((0 : Int) < 1) ∧ simulate_outdoor_temperature 5 3 40 20 1 = [] :=
  ⟨by decide, (simulate_outdoor_temperature_correct 5 3 40 20 1 (by decide)).1 (by decide)⟩

/-- Claim C9: in heating mode the clipped RBC energy dominates the clipped
MPC energy at every temperature delta, hence the all-savings pipeline in
heating mode never reports negative energy savings; in cooling mode the
per-sample dominance fails for negative deltas. -/
theorem heating_mpc_dominance :
    (∀ d : ℚ, max 0 (MPCCalculator.MPC_C1_HEATING * d + MPCCalculator.C2_HEATING)
        ≤ max 0 (MPCCalculator.RBC_C1_HEATING * d + MPCCalculator.C2_HEATING))
    ∧ (∀ (electricity_rate : ℚ) (a b : List (Int × ℚ)),
        0 ≤ (MPCCalculator.calculate_all_savings_metrics "heating"
              electricity_rate a b).energy_savings_kwh)
    ∧ (∃ d : ℚ, d < 0
        ∧ max 0 (MPCCalculator.RBC_C1_COOLING * d + MPCCalculator.C2_COOLING)
          < max 0 (MPCCalculator.MPC_C1_COOLING * d + MPCCalculator.C2_COOLING)) := by
  refine ⟨heating_dominance, ?_, ?_⟩
  · intro electricity_rate a b
    show 0 ≤ MPCCalculator.calculate_total_energy_savings
        (MPCCalculator.calculate_energy_consumption "heating" "mpc" a b)
        (MPCCalculator.calculate_energy_consumption "heating" "rbc" a b)
    exact heating_savings_nonneg a b
  · refine ⟨-1, by norm_num, ?_⟩
    rw [max_eq_right (by norm_num [MPCCalculator.RBC_C1_COOLING, MPCCalculator.C2_COOLING]),
      max_eq_right (by norm_num [MPCCalculator.MPC_C1_COOLING, MPCCalculator.C2_COOLING])]
    norm_num [MPCCalculator.RBC_C1_COOLING, MPCCalculator.C2_COOLING,
      MPCCalculator.MPC_C1_COOLING]

/-- Claim C10: the electric energy `count * 2.08` plus the gas energy
`Σ (0.34 + surcharge(month))` used by the cost breakdown equals the
reported total energy `Σ (2.42 + surcharge(month))`. -/
theorem baseline_energy_decomposition_consistent (indoor outdoor : List (Stamp × ℚ)) :
    ((indoor.length : ℚ) * 2.08
        + (indoor.map (fun p => (0.34 : ℚ) + EnergyCalculator.HEATING_RATES p.1.month)).sum
      = (EnergyCalculator.calculate_all_metrics indoor outdoor).total_energy_kwh)
    ∧ (EnergyCalculator.calculate_all_metrics indoor outdoor).total_energy_kwh
        = (indoor.map (fun p => (2.42 : ℚ) + EnergyCalculator.HEATING_RATES p.1.month)).sum := by
  refine ⟨?_, baseline_total_eq indoor outdoor⟩
  rw [baseline_total_eq indoor outdoor,
    sum_map_add_const (2.42 : ℚ) (fun p : Stamp × ℚ => EnergyCalculator.HEATING_RATES p.1.month),
    sum_map_add_const (0.34 : ℚ) (fun p : Stamp × ℚ => EnergyCalculator.HEATING_RATES p.1.month)]
  ring
